import Mathlib

/-!
Verification of `lasagne/objectives.py`: the loss functions `mse`,
`crossentropy`, `multinomial_nll` and the wrapper classes `Objective`
and `MaskedObjective`.

The Python code builds symbolic theano expressions.  We embed those
expressions as a term algebra `Expr` (graph construction is exactly
what the Python code does; evaluation happens later inside theano).
`eval` gives the later numeric semantics over rational tensors for the
operations the claims need; the two cross-entropy primitives involve
logarithms and are left unevaluated (`none`), since no claim concerns
their numeric value.

Python functions are first-class values whose arity is checked at call
time; `PyFun` records the arity and `call2`/`call3` raise a `TypeError`
on a mismatch, exactly as CPython does.  Failures during expression
construction are modelled with `Except PyError`.
-/

/-- A symbolic tensor expression (a theano graph node). `var` covers the
placeholders built by `T.matrix(name)`. -/
inductive Expr where
  | var : String → Expr
  | sub : Expr → Expr → Expr
  | mul : Expr → Expr → Expr
  | div : Expr → Expr → Expr
  | pow : Expr → Nat → Expr
  | sum : Expr → Expr
  | mean : Expr → Expr
  | binaryCrossentropy : Expr → Expr → Expr
  | categoricalCrossentropy : Expr → Expr → Expr
  deriving DecidableEq, Repr

/-- A runtime tensor value: a scalar (result of `T.sum` / `T.mean`) or a
flattened tensor of rationals. -/
inductive Value where
  | scalar : ℚ → Value
  | tensor : List ℚ → Value
  deriving DecidableEq, Repr

/-- Elementwise binary operation with scalar broadcasting; two tensors
must have the same number of elements, otherwise evaluation fails. -/
def broadcastOp (f : ℚ → ℚ → ℚ) : Value → Value → Option Value
  | .scalar a, .scalar b => some (.scalar (f a b))
  | .scalar a, .tensor bs => some (.tensor (bs.map (fun b => f a b)))
  | .tensor as, .scalar b => some (.tensor (as.map (fun a => f a b)))
  | .tensor as, .tensor bs =>
      if as.length = bs.length then some (.tensor (List.zipWith f as bs))
      else none

/-- Elementwise power. -/
def Value.powNat : Value → Nat → Value
  | .scalar a, n => .scalar (a ^ n)
  | .tensor as, n => .tensor (as.map (fun a => a ^ n))

/-- Numeric semantics of an expression under an environment assigning a
value to every placeholder name.  The cross-entropy primitives are not
given a numeric semantics (they involve logarithms). -/
def eval : Expr → (String → Value) → Option Value
  | .var s, env => some (env s)
  | .sub a b, env => do broadcastOp (fun x y => x - y) (← eval a env) (← eval b env)
  | .mul a b, env => do broadcastOp (fun x y => x * y) (← eval a env) (← eval b env)
  | .div a b, env => do broadcastOp (fun x y => x / y) (← eval a env) (← eval b env)
  | .pow a n, env => (eval a env).map (fun v => v.powNat n)
  | .sum a, env =>
      (eval a env).map (fun v =>
        match v with
        | .scalar q => .scalar q
        | .tensor qs => .scalar qs.sum)
  | .mean a, env =>
      (eval a env).map (fun v =>
        match v with
        | .scalar q => .scalar q
        | .tensor qs => .scalar (qs.sum / (qs.length : ℚ)))
  | .binaryCrossentropy _ _, _ => none
  | .categoricalCrossentropy _ _, _ => none

/-- Number of reduction nodes (`T.sum`, `T.mean`, and the per-row
reduction inside `T.nnet.categorical_crossentropy`) in an expression. -/
def Expr.reductionCount : Expr → Nat
  | .var _ => 0
  | .sub a b => a.reductionCount + b.reductionCount
  | .mul a b => a.reductionCount + b.reductionCount
  | .div a b => a.reductionCount + b.reductionCount
  | .pow a _ => a.reductionCount
  | .sum a => a.reductionCount + 1
  | .mean a => a.reductionCount + 1
  | .binaryCrossentropy a b => a.reductionCount + b.reductionCount
  | .categoricalCrossentropy a b => a.reductionCount + b.reductionCount + 1

/-- `mse(x, t)`: `return (x - t) ** 2`. -/
def mse (x t : Expr) : Expr :=
  Expr.pow (Expr.sub x t) 2

/-- `crossentropy(x, t)`: `return T.nnet.binary_crossentropy(x, t)`. -/
def crossentropy (x t : Expr) : Expr :=
  Expr.binaryCrossentropy x t

/-- `multinomial_nll(x, t)`: `return T.nnet.categorical_crossentropy(x, t)`. -/
def multinomial_nll (x t : Expr) : Expr :=
  Expr.categoricalCrossentropy x t

/-- A Python-level error; `typeError` models `TypeError`. -/
inductive PyError where
  | typeError : String → PyError
  | other : String → PyError
  deriving DecidableEq, Repr

/-- A Python function value together with its arity: losses of the form
`f(x, t)` (such as `mse`) or `f(x, t, m)`. -/
inductive PyFun where
  | fun2 : (Expr → Expr → Expr) → PyFun
  | fun3 : (Expr → Expr → Expr → Expr) → PyFun

/-- Calling a function with two positional arguments; a `f(x, t, m)`
function raises `TypeError` for the missing argument. -/
def PyFun.call2 : PyFun → Expr → Expr → Except PyError Expr
  | .fun2 f, x, t => .ok (f x t)
  | .fun3 _, _, _ => .error (.typeError ("missing 1 required positional argument"))

/-- Calling a function with three positional arguments; a `f(x, t)`
function raises `TypeError` for the extra argument. -/
def PyFun.call3 : PyFun → Expr → Expr → Expr → Except PyError Expr
  | .fun2 _, _, _, _ =>
      .error (.typeError ("mse() takes 2 positional arguments but 3 were given"))
  | .fun3 f, x, t, m => .ok (f x t m)

/-- The `mse` function as a Python value: a two-argument function.  It is
the default `loss_function` of both wrapper classes. -/
def mseFun : PyFun :=
  .fun2 mse

/-- The wrapped network layer: its `get_output(input, *args, **kwargs)`
method builds the network's output expression and may fail. -/
structure Layer where
  get_output : Option Expr → List Expr → List (String × Expr) → Except PyError Expr

/-- State of an `Objective` instance after `__init__`. -/
structure Objective where
  input_layer : Layer
  loss_function : PyFun
  target_var : Expr

/-- `Objective.__init__(input_layer, loss_function=mse)`: stores the
layer and the loss function and creates `T.matrix("target")`. -/
def Objective.init (input_layer : Layer) (loss_function : PyFun) : Objective :=
  ⟨input_layer, loss_function, Expr.var ("target")⟩

/-- `Objective.get_loss(input=None, target=None, *args, **kwargs)`:
computes the network output, defaults the target to `self.target_var`,
and returns `T.mean(self.loss_function(network_output, target))`. -/
def Objective.get_loss (self : Objective) (input : Option Expr)
    (target : Option Expr) (args : List Expr) (kwargs : List (String × Expr)) :
    Except PyError Expr := do
  let network_output ← self.input_layer.get_output input args kwargs
  let target := target.getD self.target_var
  let elementwise ← self.loss_function.call2 network_output target
  return Expr.mean elementwise

/-- `Objective.get_loss` in explicit state-passing form: the method body
contains no assignment to `self`, so the post-state is the pre-state. -/
def Objective.get_loss_state (self : Objective) (input : Option Expr)
    (target : Option Expr) (args : List Expr) (kwargs : List (String × Expr)) :
    Objective × Except PyError Expr :=
  (self, self.get_loss input target args kwargs)

/-- State of a `MaskedObjective` instance after `__init__`. -/
structure MaskedObjective where
  input_layer : Layer
  loss_function : PyFun
  target_var : Expr
  mask_var : Expr
  normalize_mask : Bool

/-- `MaskedObjective.__init__(input_layer, loss_function=mse,
normalize_mask=False)`: stores the layer, the loss function and the
flag, and creates `T.matrix("target")` and `T.matrix("mask")`. -/
def MaskedObjective.init (input_layer : Layer) (loss_function : PyFun)
    (normalize_mask : Bool) : MaskedObjective :=
  ⟨input_layer, loss_function, Expr.var ("target"), Expr.var ("mask"), normalize_mask⟩

/-- `MaskedObjective.get_loss(input=None, target=None, mask=None,
normalize_mask=None, *args, **kwargs)`: computes the network output,
defaults target/mask/normalize_mask to the stored values, divides the
mask by its sum when normalization is on, and returns
`T.sum(self.loss_function(network_output, target, mask) * mask)`. -/
def MaskedObjective.get_loss (self : MaskedObjective) (input : Option Expr)
    (target : Option Expr) (mask : Option Expr) (normalize_mask : Option Bool)
    (args : List Expr) (kwargs : List (String × Expr)) : Except PyError Expr := do
  let network_output ← self.input_layer.get_output input args kwargs
  let target := target.getD self.target_var
  let mask0 := mask.getD self.mask_var
  let nm := normalize_mask.getD self.normalize_mask
  let mask1 := if nm then Expr.div mask0 (Expr.sum mask0) else mask0
  let elementwise ← self.loss_function.call3 network_output target mask1
  return Expr.sum (Expr.mul elementwise mask1)

/-- `MaskedObjective.get_loss` in explicit state-passing form: the method
body contains no assignment to `self`, so the post-state is the
pre-state. -/
def MaskedObjective.get_loss_state (self : MaskedObjective) (input : Option Expr)
    (target : Option Expr) (mask : Option Expr) (normalize_mask : Option Bool)
    (args : List Expr) (kwargs : List (String × Expr)) :
    MaskedObjective × Except PyError Expr :=
  (self, self.get_loss input target mask normalize_mask args kwargs)

/-- The mask expression actually applied by `MaskedObjective.get_loss`:
the passed mask (or the stored placeholder), normalized when the
effective flag is on. -/
def effectiveMask (self : MaskedObjective) (mask : Option Expr)
    (normalize_mask : Option Bool) : Expr :=
  let mask0 := mask.getD self.mask_var
  if normalize_mask.getD self.normalize_mask then Expr.div mask0 (Expr.sum mask0)
  else mask0

/-- A layer whose `get_output` always succeeds with a fixed output
expression; used for concrete instantiations. -/
def okLayer : Layer :=
  ⟨fun _ _ _ => .ok (Expr.var ("netout"))⟩

/-- A layer whose `get_output` always fails; used for concrete
instantiations. -/
def errLayer : Layer :=
  ⟨fun _ _ _ => .error (PyError.other ("layer failed"))⟩

/-- A three-argument loss function of the documented form `f(x, t, m)`;
used for concrete instantiations. -/
def lossFun3 : PyFun :=
  .fun3 (fun x t m => Expr.mul (mse x t) m)

/-- C2: `get_loss` with `target=None` uses the wrapper's own target
placeholder `target_var`, for both `Objective` and `MaskedObjective`. -/
theorem get_loss_target_defaults (o : Objective) (m : MaskedObjective)
    (i mk : Option Expr) (nm : Option Bool) (args : List Expr)
    (kwargs : List (String × Expr)) :
    o.get_loss i none args kwargs = o.get_loss i (some o.target_var) args kwargs
    ∧ m.get_loss i none mk nm args kwargs
        = m.get_loss i (some m.target_var) mk nm args kwargs :=
  ⟨rfl, rfl⟩

/-- C5: with the default `loss_function=mse` (a two-argument function),
`MaskedObjective.get_loss` calls it with three arguments and raises
`TypeError` instead of returning a masked sum. -/
theorem masked_default_loss_raises :
    (MaskedObjective.init okLayer mseFun false).get_loss none none none none [] []
      = .error (PyError.typeError ("mse() takes 2 positional arguments but 3 were given")) :=
  rfl

/-- C7: `get_loss` never mutates the objective: in state-passing form the
post-state's fields all equal the pre-state's fields, for both classes. -/
theorem get_loss_preserves_state (o : Objective) (m : MaskedObjective)
    (i t mk : Option Expr) (nm : Option Bool) (args : List Expr)
    (kwargs : List (String × Expr)) :
    ((o.get_loss_state i t args kwargs).1.input_layer = o.input_layer
      ∧ (o.get_loss_state i t args kwargs).1.loss_function = o.loss_function
      ∧ (o.get_loss_state i t args kwargs).1.target_var = o.target_var)
    ∧ ((m.get_loss_state i t mk nm args kwargs).1.input_layer = m.input_layer
      ∧ (m.get_loss_state i t mk nm args kwargs).1.loss_function = m.loss_function
      ∧ (m.get_loss_state i t mk nm args kwargs).1.target_var = m.target_var
      ∧ (m.get_loss_state i t mk nm args kwargs).1.mask_var = m.mask_var
      ∧ (m.get_loss_state i t mk nm args kwargs).1.normalize_mask = m.normalize_mask) :=
  ⟨⟨rfl, rfl, rfl⟩, rfl, rfl, rfl, rfl, rfl⟩

/-- C8: `MaskedObjective.get_loss` with `mask=None` uses the wrapper's
own mask placeholder `mask_var`. -/
theorem get_loss_mask_defaults (m : MaskedObjective) (i t : Option Expr)
    (nm : Option Bool) (args : List Expr) (kwargs : List (String × Expr)) :
    m.get_loss i t none nm args kwargs
      = m.get_loss i t (some m.mask_var) nm args kwargs :=
  rfl

/-- C9: the `normalize_mask` argument overrides the constructor's
setting for the call: passing `some b` behaves exactly like an objective
constructed with `normalize_mask=b`, and passing `None` behaves like
passing the constructor's value. -/
theorem normalize_mask_override (m : MaskedObjective) (i t mk : Option Expr)
    (b : Bool) (args : List Expr) (kwargs : List (String × Expr)) :
    m.get_loss i t mk (some b) args kwargs
      = (MaskedObjective.mk m.input_layer m.loss_function m.target_var
          m.mask_var b).get_loss i t mk none args kwargs
    ∧ m.get_loss i t mk none args kwargs
        = m.get_loss i t mk (some m.normalize_mask) args kwargs :=
  ⟨rfl, rfl⟩

/-- C3: when the effective `normalize_mask` flag is `b = true`, the mask
`m` is replaced by `m / T.sum(m)` before being applied; when `b = false`
the mask is applied unmodified.  Both cases are captured by rewriting the
call to one with normalization off and the (possibly normalized) mask
passed explicitly. -/
theorem mask_normalization (m : MaskedObjective) (i t : Option Expr)
    (mask0 : Expr) (nm : Option Bool) (b : Bool) (args : List Expr)
    (kwargs : List (String × Expr)) (h : nm.getD m.normalize_mask = b) :
    m.get_loss i t (some mask0) nm args kwargs
      = m.get_loss i t
          (some (if b then Expr.div mask0 (Expr.sum mask0) else mask0))
          (some false) args kwargs := by
  cases b <;> simp [MaskedObjective.get_loss, h]

/-- Witness for C3 at a concrete instantiation with the flag on. -/
theorem mask_normalization_witness :
    ((none : Option Bool).getD (MaskedObjective.init okLayer lossFun3 true).normalize_mask = true)
    ∧ (MaskedObjective.init okLayer lossFun3 true).get_loss none none
        (some (Expr.var ("m"))) none [] []
      = (MaskedObjective.init okLayer lossFun3 true).get_loss none none
          (some (if true then Expr.div (Expr.var ("m")) (Expr.sum (Expr.var ("m")))
                 else Expr.var ("m")))
          (some false) [] [] :=
  ⟨rfl, mask_normalization (MaskedObjective.init okLayer lossFun3 true) none none
    (Expr.var ("m")) none true [] [] rfl⟩

/-- C4: when the layer and the loss-function call succeed,
`Objective.get_loss` returns the mean of the elementwise loss of the
network output against the target, and `MaskedObjective.get_loss`
returns the sum of the elementwise loss weighted by the effective
mask. -/
theorem scalar_reduction (o : Objective) (m : MaskedObjective)
    (i t mk : Option Expr) (nm : Option Bool) (args : List Expr)
    (kwargs : List (String × Expr)) (out out2 e e2 : Expr)
    (h1 : o.input_layer.get_output i args kwargs = .ok out)
    (h2 : o.loss_function.call2 out (t.getD o.target_var) = .ok e)
    (h3 : m.input_layer.get_output i args kwargs = .ok out2)
    (h4 : m.loss_function.call3 out2 (t.getD m.target_var)
            (effectiveMask m mk nm) = .ok e2) :
    o.get_loss i t args kwargs = .ok (Expr.mean e)
    ∧ m.get_loss i t mk nm args kwargs
        = .ok (Expr.sum (Expr.mul e2 (effectiveMask m mk nm))) := by
  constructor
  · simp [Objective.get_loss, h1, h2, Bind.bind, Except.bind, Functor.map, Except.map, Pure.pure, Except.pure]
  · simp only [MaskedObjective.get_loss, h3, effectiveMask] at h4 ⊢
    simp [h4, Bind.bind, Except.bind, Functor.map, Except.map, Pure.pure, Except.pure]

/-- Witness for C4 at a concrete instantiation. -/
theorem scalar_reduction_witness :
    ((Objective.init okLayer mseFun).input_layer.get_output none [] []
        = .ok (Expr.var ("netout")))
    ∧ ((Objective.init okLayer mseFun).loss_function.call2 (Expr.var ("netout"))
        ((none : Option Expr).getD (Objective.init okLayer mseFun).target_var)
        = .ok (mse (Expr.var ("netout")) (Expr.var ("target"))))
    ∧ ((MaskedObjective.init okLayer lossFun3 false).input_layer.get_output none [] []
        = .ok (Expr.var ("netout")))
    ∧ ((MaskedObjective.init okLayer lossFun3 false).loss_function.call3
        (Expr.var ("netout"))
        ((none : Option Expr).getD (MaskedObjective.init okLayer lossFun3 false).target_var)
        (effectiveMask (MaskedObjective.init okLayer lossFun3 false) none none)
        = .ok (Expr.mul (mse (Expr.var ("netout")) (Expr.var ("target"))) (Expr.var ("mask"))))
    ∧ (Objective.init okLayer mseFun).get_loss none none [] []
        = .ok (Expr.mean (mse (Expr.var ("netout")) (Expr.var ("target"))))
    ∧ (MaskedObjective.init okLayer lossFun3 false).get_loss none none none none [] []
        = .ok (Expr.sum (Expr.mul
            (Expr.mul (mse (Expr.var ("netout")) (Expr.var ("target"))) (Expr.var ("mask")))
            (effectiveMask (MaskedObjective.init okLayer lossFun3 false) none none))) := by
  refine ⟨rfl, rfl, rfl, rfl, ?_⟩
  exact scalar_reduction (Objective.init okLayer mseFun)
    (MaskedObjective.init okLayer lossFun3 false) none none none none [] []
    (Expr.var ("netout")) (Expr.var ("netout"))
    (mse (Expr.var ("netout")) (Expr.var ("target")))
    (Expr.mul (mse (Expr.var ("netout")) (Expr.var ("target"))) (Expr.var ("mask")))
    rfl rfl rfl rfl

/-- C6: `get_loss` performs no error handling: a failure of the wrapped
layer's `get_output`, or of the loss-function call during expression
construction, propagates unchanged to the caller, for both classes. -/
theorem error_propagation (o o2 : Objective) (m m2 : MaskedObjective)
    (i t mk : Option Expr) (nm : Option Bool) (args : List Expr)
    (kwargs : List (String × Expr)) (e1 e2 e3 e4 : PyError) (out out2 : Expr)
    (h1 : o.input_layer.get_output i args kwargs = .error e1)
    (h2a : o2.input_layer.get_output i args kwargs = .ok out)
    (h2b : o2.loss_function.call2 out (t.getD o2.target_var) = .error e2)
    (h3 : m.input_layer.get_output i args kwargs = .error e3)
    (h4a : m2.input_layer.get_output i args kwargs = .ok out2)
    (h4b : m2.loss_function.call3 out2 (t.getD m2.target_var)
             (effectiveMask m2 mk nm) = .error e4) :
    o.get_loss i t args kwargs = .error e1
    ∧ o2.get_loss i t args kwargs = .error e2
    ∧ m.get_loss i t mk nm args kwargs = .error e3
    ∧ m2.get_loss i t mk nm args kwargs = .error e4 := by
  refine ⟨?_, ?_, ?_, ?_⟩
  · simp [Objective.get_loss, h1, Bind.bind, Except.bind]
  · simp [Objective.get_loss, h2a, h2b, Bind.bind, Except.bind, Functor.map, Except.map]
  · simp [MaskedObjective.get_loss, h3, Bind.bind, Except.bind]
  · simp only [MaskedObjective.get_loss, h4a, effectiveMask] at h4b ⊢
    simp [h4b, Bind.bind, Except.bind, Functor.map, Except.map]

/-- Witness for C6 at concrete instantiations: a failing layer, and
loss-function calls of the wrong arity. -/
theorem error_propagation_witness :
    ((Objective.init errLayer mseFun).input_layer.get_output none [] []
        = .error (PyError.other ("layer failed")))
    ∧ ((Objective.init okLayer lossFun3).input_layer.get_output none [] []
        = .ok (Expr.var ("netout")))
    ∧ ((Objective.init okLayer lossFun3).loss_function.call2 (Expr.var ("netout"))
        ((none : Option Expr).getD (Objective.init okLayer lossFun3).target_var)
        = .error (PyError.typeError ("missing 1 required positional argument")))
    ∧ ((MaskedObjective.init errLayer lossFun3 false).input_layer.get_output none [] []
        = .error (PyError.other ("layer failed")))
    ∧ ((MaskedObjective.init okLayer mseFun false).input_layer.get_output none [] []
        = .ok (Expr.var ("netout")))
    ∧ ((MaskedObjective.init okLayer mseFun false).loss_function.call3
        (Expr.var ("netout"))
        ((none : Option Expr).getD (MaskedObjective.init okLayer mseFun false).target_var)
        (effectiveMask (MaskedObjective.init okLayer mseFun false) none none)
        = .error (PyError.typeError ("mse() takes 2 positional arguments but 3 were given")))
    ∧ (Objective.init errLayer mseFun).get_loss none none [] []
        = .error (PyError.other ("layer failed"))
    ∧ (Objective.init okLayer lossFun3).get_loss none none [] []
        = .error (PyError.typeError ("missing 1 required positional argument"))
    ∧ (MaskedObjective.init errLayer lossFun3 false).get_loss none none none none [] []
        = .error (PyError.other ("layer failed"))
    ∧ (MaskedObjective.init okLayer mseFun false).get_loss none none none none [] []
        = .error (PyError.typeError ("mse() takes 2 positional arguments but 3 were given")) := by
  refine ⟨rfl, rfl, rfl, rfl, rfl, rfl, ?_⟩
  have h := error_propagation (Objective.init errLayer mseFun)
    (Objective.init okLayer lossFun3) (MaskedObjective.init errLayer lossFun3 false)
    (MaskedObjective.init okLayer mseFun false) none none none none [] []
    (PyError.other ("layer failed"))
    (PyError.typeError ("missing 1 required positional argument"))
    (PyError.other ("layer failed"))
    (PyError.typeError ("mse() takes 2 positional arguments but 3 were given"))
    (Expr.var ("netout")) (Expr.var ("netout")) rfl rfl rfl rfl rfl rfl
  exact ⟨h.1, h.2.1, h.2.2.1, h.2.2.2⟩

/-- C10: when normalization is in effect, the normalized mask
`m / T.sum(m)` is both the third argument of the loss function and the
multiplicative weight: the result is
`T.sum(loss_function(network_output, target, m') * m')`. -/
theorem normalized_mask_used_twice (m : MaskedObjective) (i t : Option Expr)
    (mask0 : Expr) (nm : Option Bool) (args : List Expr)
    (kwargs : List (String × Expr)) (out e : Expr)
    (h1 : m.input_layer.get_output i args kwargs = .ok out)
    (h2 : nm.getD m.normalize_mask = true)
    (h3 : m.loss_function.call3 out (t.getD m.target_var)
            (Expr.div mask0 (Expr.sum mask0)) = .ok e) :
    m.get_loss i t (some mask0) nm args kwargs
      = .ok (Expr.sum (Expr.mul e (Expr.div mask0 (Expr.sum mask0)))) := by
  simp [MaskedObjective.get_loss, h1, h2, h3, Bind.bind, Except.bind,
    Functor.map, Except.map, Pure.pure, Except.pure]

/-- Witness for C10 at a concrete instantiation. -/
theorem normalized_mask_used_twice_witness :
    ((MaskedObjective.init okLayer lossFun3 true).input_layer.get_output none [] []
        = .ok (Expr.var ("netout")))
    ∧ ((none : Option Bool).getD (MaskedObjective.init okLayer lossFun3 true).normalize_mask
        = true)
    ∧ ((MaskedObjective.init okLayer lossFun3 true).loss_function.call3
        (Expr.var ("netout"))
        ((none : Option Expr).getD (MaskedObjective.init okLayer lossFun3 true).target_var)
        (Expr.div (Expr.var ("m")) (Expr.sum (Expr.var ("m"))))
        = .ok (Expr.mul (mse (Expr.var ("netout")) (Expr.var ("target")))
            (Expr.div (Expr.var ("m")) (Expr.sum (Expr.var ("m"))))))
    ∧ (MaskedObjective.init okLayer lossFun3 true).get_loss none none
        (some (Expr.var ("m"))) none [] []
      = .ok (Expr.sum (Expr.mul
          (Expr.mul (mse (Expr.var ("netout")) (Expr.var ("target")))
            (Expr.div (Expr.var ("m")) (Expr.sum (Expr.var ("m")))))
          (Expr.div (Expr.var ("m")) (Expr.sum (Expr.var ("m")))))) :=
  ⟨rfl, rfl, rfl,
    normalized_mask_used_twice (MaskedObjective.init okLayer lossFun3 true) none none
      (Expr.var ("m")) none [] [] (Expr.var ("netout"))
      (Expr.mul (mse (Expr.var ("netout")) (Expr.var ("target")))
        (Expr.div (Expr.var ("m")) (Expr.sum (Expr.var ("m")))))
      rfl rfl rfl⟩

/-- Squaring after an elementwise subtraction is the elementwise squared
difference. -/
theorem zipWith_sub_sq (xs ts : List ℚ) :
    (List.zipWith (fun a b => a - b) xs ts).map (fun q => q ^ 2)
      = List.zipWith (fun a b => (a - b) ^ 2) xs ts := by
  induction xs generalizing ts with
  | nil => simp
  | cons a as ih => cases ts <;> simp [ih]

/-- C1: on tensors of equal size, `mse(x, t)` evaluates to the
elementwise squared difference `(x - t) ** 2`, and `mse` itself applies
no reduction: its reduction nodes are exactly those of its arguments. -/
theorem mse_elementwise (x t : Expr) (env : String → Value) (xs ts : List ℚ)
    (hx : eval x env = some (.tensor xs)) (ht : eval t env = some (.tensor ts))
    (hlen : xs.length = ts.length) :
    eval (mse x t) env = some (.tensor (List.zipWith (fun a b => (a - b) ^ 2) xs ts))
    ∧ (mse x t).reductionCount = x.reductionCount + t.reductionCount := by
  constructor
  · simp [mse, eval, hx, ht, broadcastOp, hlen, Value.powNat, Bind.bind,
      Option.bind, zipWith_sub_sq]
  · simp [mse, Expr.reductionCount]

/-- Witness for C1 at concrete tensors: `x = [3, 5]`, `t = [1, 2]`
gives `[(3-1)^2, (5-2)^2] = [4, 9]`. -/
theorem mse_elementwise_witness :
    (eval (Expr.var ("x")) (fun s => if s = ("x") then Value.tensor [3, 5]
        else Value.tensor [1, 2])
      = some (Value.tensor [3, 5]))
    ∧ (eval (Expr.var ("t")) (fun s => if s = ("x") then Value.tensor [3, 5]
        else Value.tensor [1, 2])
      = some (Value.tensor [1, 2]))
    ∧ ([(3 : ℚ), 5].length = [(1 : ℚ), 2].length)
    ∧ eval (mse (Expr.var ("x")) (Expr.var ("t")))
        (fun s => if s = ("x") then Value.tensor [3, 5] else Value.tensor [1, 2])
      = some (Value.tensor (List.zipWith (fun a b => (a - b) ^ 2)
          [(3 : ℚ), 5] [(1 : ℚ), 2]))
    ∧ (mse (Expr.var ("x")) (Expr.var ("t"))).reductionCount
        = (Expr.var ("x")).reductionCount + (Expr.var ("t")).reductionCount := by
  have h := mse_elementwise (Expr.var ("x")) (Expr.var ("t"))
    (fun s => if s = ("x") then Value.tensor [3, 5] else Value.tensor [1, 2])
    [3, 5] [1, 2] (by decide) (by decide) (by decide)
  exact ⟨by decide, by decide, by decide, h.1, h.2⟩
